import Mathlib

/-!
Verification of the Word MCP server (`src/agent/_MCP/wordMCP/server.py`).

This file shallowly embeds the parts of `server.py` that carry the
control-flow design: the filename sanitizer `_sanitize_filename`, the
request normalization performed at the top of the `sse_agent` stream
generator, the plan builder `_react_doc_plan`, the document-operation
handlers and their registry `TOOL_HANDLERS`, the direct-invocation
endpoint `call_tool`, the bare SSE subscription `event_generator`, and
the multi-step orchestration loop of `stream_response` in `sse_agent`.

Modelling conventions:
- Python dictionaries of JSON-like payload fields are modelled by `JVal`
  key/value lists inside `OpResult`.
- Filesystem and python-docx effects are modelled by a `World` record of
  primitive outcomes; a primitive that can raise is an `Except String`
  value, and the `try/except` wrapper of every handler is `pytry`.
- Time is passed in explicitly: `nowSec` models `int(datetime.now().timestamp())`
  and `nowMs` models `int(datetime.now().timestamp() * 1000)`.
- Peer-disconnect polling (`await request.is_disconnected()`) is modelled
  by a schedule `disc : Nat → Bool` giving the poll outcome at each
  1-based loop iteration.
- String primitives (`strip`, `split`, `in`, `replace`, `startswith`,
  `endswith`) are implemented structurally on character lists so that the
  kernel can evaluate them on concrete inputs.
-/

/-! ### Python string primitives -/

/-- `str.strip()` on a character list: drop leading and trailing whitespace. -/
def stripChars (l : List Char) : List Char :=
  ((l.dropWhile Char.isWhitespace).reverse.dropWhile Char.isWhitespace).reverse

/-- `str.strip()`. -/
def pytrim (s : String) : String := String.mk (stripChars s.data)

/-- Whether `p` is an initial segment of `l`. -/
def startsWithL : List Char → List Char → Bool
  | [], _ => true
  | _ :: _, [] => false
  | p :: ps, c :: cs => p == c && startsWithL ps cs

/-- `str.startswith`. -/
def pyStartsWith (s pat : String) : Bool := startsWithL pat.data s.data

/-- `str.endswith`. -/
def pyEndsWith (s pat : String) : Bool := startsWithL pat.data.reverse s.data.reverse

/-- `pat in s` for a nonempty pattern, on character lists. -/
def containsAux (p : List Char) : List Char → Bool
  | [] => startsWithL p []
  | c :: cs => startsWithL p (c :: cs) || containsAux p cs

/-- Python's `pat in s` (an empty pattern is contained in every string). -/
def containsStr (s pat : String) : Bool :=
  match pat.data with
  | [] => true
  | p :: ps => containsAux (p :: ps) s.data

/-- `str.split('\n')` accumulator. -/
def splitLinesAux : List Char → List Char → List String
  | acc, [] => [String.mk acc.reverse]
  | acc, c :: rest =>
    if c == '\n' then String.mk acc.reverse :: splitLinesAux [] rest
    else splitLinesAux (c :: acc) rest

/-- `content.split('\n')`. -/
def splitLines (s : String) : List String := splitLinesAux [] s.data

/-- One pass of `str.replace` for a nonempty pattern `p0 :: ps`. -/
def replaceAuxL (p0 : Char) (ps r : List Char) : List Char → List Char
  | [] => []
  | c :: cs =>
    if startsWithL (p0 :: ps) (c :: cs) then r ++ replaceAuxL p0 ps r (cs.drop ps.length)
    else c :: replaceAuxL p0 ps r cs
termination_by l => l.length
decreasing_by
  · simp [List.length_drop]; omega
  · simp

/-- `str.replace` (the handlers only call it with a nonempty pattern;
an empty pattern leaves the string unchanged here). -/
def replaceAll (s pat rep : String) : String :=
  match pat.data with
  | [] => s
  | p :: ps => String.mk (replaceAuxL p ps rep.data s.data)

/-! ### Data model -/

/-- JSON-like values used as payload fields of an operation result. -/
inductive JVal where
  | str (s : String)
  | num (n : Nat)
  | boolean (b : Bool)
  | arr (xs : List JVal)
  | obj (kvs : List (String × JVal))

/-- The structured result dictionary every document-operation handler
returns: a `success` flag, an optional `error` string, and the remaining
payload fields. -/
structure OpResult where
  success : Bool
  error : Option String := none
  fields : List (String × JVal) := []

/-- A python-docx document, abstracted to its paragraph texts (headings
are paragraphs in docx) and its tables.  Runs are modelled as one run
per paragraph. -/
structure Doc where
  paragraphs : List String := []
  tables : List (List (List String)) := []

/-- Outcomes of the filesystem / python-docx primitives the handlers
call.  A primitive that can raise an exception yields `Except String`;
the carried string models `str(e)`. -/
structure World where
  /-- `datetime.now().strftime('%Y%m%d_%H%M%S')` -/
  nowStr : String
  /-- `file_path.exists()` -/
  fexists : String → Bool
  /-- `Document(path)` on an existing file -/
  openDoc : String → Except String Doc
  /-- `Document()` -/
  newDoc : Except String Doc
  /-- `doc.save(path)` -/
  saveDoc : String → Doc → Except String Unit
  /-- `path.stat().st_size` -/
  statSize : String → Except String Nat
  /-- `path.unlink()` -/
  unlink : String → Except String Unit
  /-- `WORD_DIR.glob("*.docx")` with `stat()`: (name, path, size, mtime iso) -/
  listDocx : Except String (List (String × String × Nat × String))

/-- `get_file_path`: prefix relative names with the word directory and
force a `.docx` suffix. -/
def get_file_path (filename : String) : String :=
  let p := if pyStartsWith filename "/" then filename else "word/" ++ filename
  if pyEndsWith p ".docx" then p else p ++ ".docx"

/-- The `try/except Exception` wrapper shared by every handler: a raised
exception `e` becomes `{"success": False, "error": str(e)}`. -/
def pytry (body : Except String OpResult) : OpResult :=
  match body with
  | .ok r => r
  | .error e => { success := false, error := some e }

/-! ### Sanitization and request normalization -/

/-- CJK range `一-龥` of the sanitizer regex. -/
def isCJK (c : Char) : Bool :=
  decide (0x4e00 ≤ c.toNat) && decide (c.toNat ≤ 0x9fa5)

/-- The regex class `\w` (modelled on ASCII alphanumerics and underscore;
CJK word characters are covered by the explicit `isCJK` range below). -/
def isWordCh (c : Char) : Bool :=
  c.isAlphanum || c == '_'

/-- A character kept by the strip step of `_sanitize_filename`:
the complement of `[^\w一-龥_-]`. -/
def keepChar (c : Char) : Bool :=
  isWordCh c || isCJK c || c == '_' || c == '-'

/-- `re.sub(r"\s+", "_", ·)`: replace each maximal whitespace run by a
single underscore.  `prevWS` records whether the previous character was
inside a whitespace run. -/
def collapseWS : Bool → List Char → List Char
  | _, [] => []
  | prevWS, c :: rest =>
    if c.isWhitespace then
      if prevWS then collapseWS true rest else '_' :: collapseWS true rest
    else c :: collapseWS false rest

/-- `_sanitize_filename`: strip, collapse whitespace runs to `_`, drop
characters outside `\w`, CJK, `_`, `-`, and truncate to 40 characters. -/
def sanitize_filename (name : String) : String :=
  let s := collapseWS false (pytrim name).data
  let s := s.filter keepChar
  String.mk (s.take 40)

/-- The request body of `POST /sse/agent` (`AgentRequest`). -/
structure AgentRequest where
  query : String
  title : Option String := none
  filename : Option String := none

/-- Request normalization at the top of `stream_response` in `sse_agent`:
derive the display title and the timestamp-disambiguated document
identifier.  `nowSec` and `nowMs` are the two timestamp reads. -/
def normalize_request (req : AgentRequest) (nowSec nowMs : Nat) : String × String :=
  let title0 := pytrim (req.title.getD "")
  let title := if title0 = "" then (if pytrim req.query = "" then "新文档" else pytrim req.query) else title0
  let raw := match req.filename with
    | some f => if f = "" then title else f
    | none => title
  let base0 := sanitize_filename raw
  let base := if base0 = "" ∨ base0.length < 3 then "doc_" ++ toString nowSec else base0
  (title, base ++ "_" ++ toString nowMs)


/-! ### Plan builder `_react_doc_plan` -/

/-- Keyword arguments a step can carry (`params` dictionaries of the plan
and of `ToolCallRequest`), one optional field per recognized keyword. -/
structure Params where
  filename : Option String := none
  title : Option String := none
  content : Option String := none
  action : Option String := none
  paragraph_index : Option Int := none
  table_data : Option (List (List String)) := none
  search_text : Option String := none
  replace_text : Option String := none
deriving DecidableEq, Repr

/-- One plan step `{tool, label, params}`. -/
structure Step where
  tool : String
  label : Option String := none
  params : Params
deriving DecidableEq, Repr

/-- The introductory paragraph of the generated document. -/
def introText (title : String) : String :=
  "《" ++ title ++ "》\n" ++ "\n" ++
  "本文档用于快速了解 " ++ title ++ " 的定位、核心概念与实践建议，并给出一个最小示例。\n"

/-- The fixed ordered list of sections (heading, body) of `_react_doc_plan`. -/
def sections (title : String) : List (String × String) :=
  [ ("一、React 是什么", String.intercalate "\n" [
      "React 是一个用于构建用户界面（UI）的 JavaScript 库，核心思想是用组件化的方式组织界面。",
      "它强调声明式编程：你描述 UI 在某个状态下应该长什么样，框架负责在状态变化时高效更新界面。",
      "React 本身更关注“视图层”，通常会配合路由、状态管理、构建工具等组成完整工程方案。"]),
    ("二、核心概念速览", String.intercalate "\n" [
      "1) 组件（Component）：将 UI 拆分为可复用单元。",
      "2) JSX：一种 JavaScript 语法扩展，用于更直观地描述 UI 结构。",
      "3) Props / State：props 用于父传子数据；state 用于组件内部状态。",
      "4) Hooks：函数组件中复用状态逻辑（如 useState/useEffect/useMemo）。",
      "5) 渲染与更新：React 会在状态变化后计算新的 UI，并将差异更新到真实 DOM。"]),
    ("三、Hooks 使用建议", String.intercalate "\n" [
      "useState：管理局部状态；状态更新尽量保持不可变数据结构。",
      "useEffect：处理副作用（数据请求、订阅、DOM 操作）；注意清理函数避免泄漏。",
      "useMemo / useCallback：用于性能优化，避免不必要的重新计算与函数重建（不要过度使用）。",
      "自定义 Hook：把可复用逻辑封装成 useXxx，提升可维护性。"]),
    ("四、生态与工程化", String.intercalate "\n" [
      "路由：React Router（Web 应用常用）。",
      "状态管理：Redux Toolkit / Zustand / Jotai 等（按复杂度选择）。",
      "数据请求与缓存：TanStack Query（React Query）。",
      "构建工具：Vite / Webpack；框架化方案可选 Next.js（SSR/SSG）。",
      "类型系统：TypeScript 与 React 搭配能显著提升大型项目稳定性。"]),
    ("五、一个最小示例（函数组件 + Hooks）", String.intercalate "\n" [
      "下面示例展示一个计数器：",
      "",
      "\x60\x60\x60tsx",
      "import \x7b useState \x7d from \x27react\x27;",
      "",
      "export function Counter() \x7b",
      "  const [count, setCount] = useState(0);",
      "  return (",
      "    <div>",
      "      <p>count: \x7bcount\x7d</p>",
      "      <button onClick=\x7b() => setCount((c) => c + 1)\x7d>+1</button>",
      "    </div>",
      "  );",
      "\x7d",
      "\x60\x60\x60"]),
    ("六、最佳实践清单", String.intercalate "\n" [
      "组件职责单一：展示组件与容器组件适度分离。",
      "数据流清晰：优先自上而下传递，避免过早引入全局状态。",
      "副作用可控：useEffect 依赖数组准确；异步请求注意取消/忽略过期响应。",
      "性能优化有依据：先用性能分析工具定位，再用 memo/useMemo/useCallback 优化。",
      "可测试性：复杂逻辑提取为纯函数/自定义 Hook，便于单测。"]),
    ("七、总结", String.intercalate "\n" [
      title ++ " 适合构建组件化、可维护的大型前端应用。",
      "建议从函数组件 + Hooks 入手，配合 TypeScript 与现代构建工具（如 Vite）形成稳定工程实践。"]) ]

/-- The fixed comparison table appended by the last plan step. -/
def compareTable : List (List String) :=
  [ ["维度", "React", "Vue", "Angular"],
    ["定位", "UI 库", "渐进式框架", "全家桶框架"],
    ["学习曲线", "中等（JS/TS + Hooks）", "较平滑", "较陡（概念多）"],
    ["生态", "非常丰富", "丰富", "偏企业级"] ]

/-- `_react_doc_plan(title, filename)`: the create step, then for each
section an `add_heading` step and an `append` step, then the table step. -/
def react_doc_plan (title filename : String) : List Step :=
  { tool := "create_document", label := some "创建文档",
    params := { filename := some filename, title := some title, content := some (introText title) } }
  :: (((sections title).flatMap (fun hb =>
      [ { tool := "update_document", label := some ("添加章节：" ++ hb.1),
          params := { filename := some filename, action := some "add_heading", content := some hb.1 } },
        { tool := "update_document", label := some ("写入内容：" ++ hb.1),
          params := { filename := some filename, action := some "append", content := some hb.2 } } ]))
    ++ [ { tool := "add_table", label := some "插入对比表格",
           params := { filename := some filename, title := some "React / Vue / Angular 对比（简表）",
                       table_data := some compareTable } } ])

/-- The keys of the `TOOL_HANDLERS` registry, in insertion order. -/
def TOOL_HANDLERS_keys : List String :=
  ["create_document", "read_document", "update_document", "delete_document",
   "list_documents", "add_table", "search_replace"]

/-- The keys of the `TOOLS` description dictionary (`list(TOOLS.keys())`). -/
def TOOLS_keys : List String :=
  ["create_document", "read_document", "update_document", "delete_document",
   "list_documents", "add_table", "search_replace"]

/-! ### Events and the orchestration loop of `sse_agent` -/

/-- The tagged union of SSE frames the server emits. -/
inductive Event where
  /-- `{'type': 'connected', 'message': ...}` -/
  | connected (message : String)
  /-- `{'type': 'tools', 'tools': [...]}` -/
  | toolsList (tools : List String)
  /-- `{'type': 'start', 'tool': 'agent', 'message': ...}` -/
  | startAgent (message : String)
  /-- `{'type': 'progress', 'message': ...}` -/
  | progress (message : String)
  /-- `{'type': 'start', 'tool': ..., 'step': ..., 'label': ...}` -/
  | startStep (tool : String) (step : Nat) (label : String)
  /-- `{'type': 'error', 'error': ..., 'step': ...}` -/
  | errorEvt (error : String) (step : Nat)
  /-- `{'type': 'result', 'data': ..., 'tool': ..., 'step': ..., 'label': ...}` -/
  | resultEvt (data : OpResult) (tool : String) (step : Nat) (label : String)
  /-- `{'type': 'done', 'data': {'filename': ..., 'title': ...}}` -/
  | doneEvt (filename title : String)
  /-- `{'type': 'heartbeat', 'time': ...}` -/
  | heartbeat (time : String)

/-- The `type` field of the serialized frame. -/
def Event.etype : Event → String
  | .connected _ => "connected"
  | .toolsList _ => "tools"
  | .startAgent _ => "start"
  | .progress _ => "progress"
  | .startStep _ _ _ => "start"
  | .errorEvt _ _ => "error"
  | .resultEvt _ _ _ _ => "result"
  | .doneEvt _ _ => "done"
  | .heartbeat _ => "heartbeat"

/-- Number of emitted frames whose `type` field is `t`. -/
def countType (t : String) (evs : List Event) : Nat :=
  (evs.filter (fun e => e.etype == t)).length

/-- Whether some emitted frame is a `done` frame. -/
def hasDone (evs : List Event) : Bool :=
  evs.any (fun e => e.etype == "done")

/-- `step.get("label") or tool_name`. -/
def labelOf (s : Step) : String :=
  match s.label with
  | some l => if l = "" then s.tool else l
  | none => s.tool

/-- The `progress` message `f"[{idx}/{len(plan)}] {label}"`. -/
def progressMsg (idx total : Nat) (label : String) : String :=
  "[" ++ toString idx ++ "/" ++ toString total ++ "] " ++ label

/-- The `for idx, step in enumerate(plan, start=1)` loop of
`stream_response` in `sse_agent`.  `backend` gives the result of
`handler(**params)` for a registered handler; `disc` is the outcome of
the disconnect poll at each iteration.  Returns the emitted events and
whether control reached the code after the loop (`True` after normal
exhaustion or `break`; `False` after the unknown-tool `return`, which
skips the final `done`). -/
def runSteps (backend : String → Params → OpResult) (total : Nat) (disc : Nat → Bool) :
    List Step → Nat → List Event × Bool
  | [], _ => ([], true)
  | step :: rest, idx =>
    if disc idx then ([], true)
    else
      let label := labelOf step
      let pEvt := Event.progress (progressMsg idx total label)
      let sEvt := Event.startStep step.tool idx label
      if TOOL_HANDLERS_keys.contains step.tool then
        let r := backend step.tool step.params
        let out := runSteps backend total disc rest (idx + 1)
        (pEvt :: sEvt :: Event.resultEvt r step.tool idx label :: out.1, out.2)
      else
        ([pEvt, sEvt, Event.errorEvt ("未知工具: " ++ step.tool) idx], false)

/-- The part of the `sse_agent` generator from the first yield on: the
agent `start` frame, the loop frames, and — unless the loop ended via the
unknown-tool `return` — the final `done` frame. -/
def agentStream (backend : String → Params → OpResult) (disc : Nat → Bool)
    (plan : List Step) (filename title : String) : List Event :=
  let out := runSteps backend plan.length disc plan 1
  Event.startAgent "开始多步生成文档" :: (out.1 ++ if out.2 then [Event.doneEvt filename title] else [])

/-- The full `stream_response` generator of `POST /sse/agent`: normalize
the request, build the plan, run the loop. -/
def stream_response (req : AgentRequest) (nowSec nowMs : Nat)
    (disc : Nat → Bool) (backend : String → Params → OpResult) : List Event :=
  let n := normalize_request req nowSec nowMs
  agentStream backend disc (react_doc_plan n.1 n.2) n.2 n.1

/-- The heartbeat loop of the bare `GET /sse` subscription: one
`heartbeat` frame per poll that still sees the peer connected.  `times`
gives `datetime.now().isoformat()` at tick `i`; `n` is the index of the
first disconnect poll that returns true (so `n` heartbeats are sent). -/
def hbLoop (times : Nat → String) : Nat → Nat → List Event
  | _, 0 => []
  | i, n + 1 => Event.heartbeat (times i) :: hbLoop times (i + 1) n

/-- The `event_generator` of `GET /sse`: a `connected` frame, a `tools`
frame, then heartbeats until the peer disconnects. -/
def event_generator (times : Nat → String) (n : Nat) : List Event :=
  Event.connected "SSE 连接成功" :: Event.toolsList TOOLS_keys :: hbLoop times 0 n


/-! ### Document-operation handlers (`TOOL_HANDLERS` values) -/

/-- Python truthiness of an optional string argument. -/
def isTruthy (o : Option String) : Bool :=
  match o with
  | some s => !(s == "")
  | none => false

/-- `doc.save(path)` followed by `return r`. -/
def saveThen (w : World) (fp : String) (d : Doc) (r : OpResult) : Except String OpResult :=
  match w.saveDoc fp d with
  | .error e => .error e
  | .ok _ => .ok r

/-- Python list indexing `l[i]` (negative indices wrap; out-of-range
raises `IndexError`), returning the wrapped nonnegative index. -/
def pyIdx (n : Nat) (i : Int) : Except String Nat :=
  let j := if i < 0 then i + n else i
  if 0 ≤ j ∧ j < n then .ok j.toNat else .error "IndexError: list index out of range"

/-- The `try` block of `create_document`. -/
def create_document_body (w : World) (filename title content : Option String) :
    Except String OpResult :=
  let filename := if isTruthy filename then filename.getD "" else "document_" ++ w.nowStr ++ ".docx"
  let file_path := get_file_path filename
  match w.newDoc with
  | .error e => .error e
  | .ok doc =>
    let doc := if isTruthy title then { doc with paragraphs := doc.paragraphs ++ [title.getD ""] } else doc
    let doc := if isTruthy content then
        { doc with paragraphs := doc.paragraphs ++ (splitLines (content.getD "")).map pytrim }
      else doc
    match w.saveDoc file_path doc with
    | .error e => .error e
    | .ok _ =>
      match w.statSize file_path with
      | .error e => .error e
      | .ok size =>
        .ok { success := true,
              fields := [("message", .str "文档创建成功"), ("file_path", .str file_path),
                         ("file_size", .num size)] }

/-- `create_document` handler. -/
def create_document (w : World) (filename title content : Option String) : OpResult :=
  pytry (create_document_body w filename title content)

/-- The `try` block of `read_document`. -/
def read_document_body (w : World) (filename : String) : Except String OpResult :=
  let fp := get_file_path filename
  if w.fexists fp = false then
    .ok { success := false, error := some ("文件不存在: " ++ filename) }
  else
    match w.openDoc fp with
    | .error e => .error e
    | .ok doc =>
      .ok { success := true,
            fields := [("file_path", .str fp),
                       ("paragraphs", .arr (doc.paragraphs.map .str)),
                       ("paragraph_count", .num doc.paragraphs.length),
                       ("tables", .arr (doc.tables.map (fun t =>
                          JVal.arr (t.map (fun row => JVal.arr (row.map .str)))))),
                       ("table_count", .num doc.tables.length),
                       ("full_text", .str (String.intercalate "\n" doc.paragraphs))] }

/-- `read_document` handler. -/
def read_document (w : World) (filename : String) : OpResult :=
  pytry (read_document_body w filename)

/-- The success dictionary of `update_document`. -/
def updOk (action : String) : OpResult :=
  { success := true, fields := [("message", .str "文档更新成功"), ("action", .str action)] }

/-- The `try` block of `update_document`. -/
def update_document_body (w : World) (filename action : String)
    (content : Option String) (paragraph_index : Option Int) : Except String OpResult :=
  let fp := get_file_path filename
  if w.fexists fp = false then
    .ok { success := false, error := some ("文件不存在: " ++ filename) }
  else
    match w.openDoc fp with
    | .error e => .error e
    | .ok doc =>
      if action = "append" ∧ isTruthy content = true then
        saveThen w fp { doc with paragraphs := doc.paragraphs ++ splitLines (content.getD "") } (updOk action)
      else if action = "add_heading" ∧ isTruthy content = true then
        saveThen w fp { doc with paragraphs := doc.paragraphs ++ [content.getD ""] } (updOk action)
      else if action = "insert" ∧ isTruthy content = true ∧ paragraph_index.isSome = true then
        let i := paragraph_index.getD 0
        if i < (doc.paragraphs.length : Int) then
          match pyIdx doc.paragraphs.length i with
          | .error e => .error e
          | .ok j =>
            saveThen w fp
              { doc with paragraphs := doc.paragraphs.take j ++ [content.getD ""] ++ doc.paragraphs.drop j }
              (updOk action)
        else saveThen w fp doc (updOk action)
      else if action = "replace" ∧ paragraph_index.isSome = true then
        let i := paragraph_index.getD 0
        if i < (doc.paragraphs.length : Int) then
          match pyIdx doc.paragraphs.length i with
          | .error e => .error e
          | .ok j => saveThen w fp { doc with paragraphs := doc.paragraphs.set j (content.getD "") } (updOk action)
        else saveThen w fp doc (updOk action)
      else
        .ok { success := false, error := some "无效的操作或缺少参数" }

/-- `update_document` handler. -/
def update_document (w : World) (filename action : String)
    (content : Option String) (paragraph_index : Option Int) : OpResult :=
  pytry (update_document_body w filename action content paragraph_index)

/-- The `try` block of `delete_document`. -/
def delete_document_body (w : World) (filename : String) : Except String OpResult :=
  let fp := get_file_path filename
  if w.fexists fp = false then
    .ok { success := false, error := some ("文件不存在: " ++ filename) }
  else
    match w.unlink fp with
    | .error e => .error e
    | .ok _ => .ok { success := true, fields := [("message", .str "文档删除成功")] }

/-- `delete_document` handler. -/
def delete_document (w : World) (filename : String) : OpResult :=
  pytry (delete_document_body w filename)

/-- The `try` block of `list_documents`. -/
def list_documents_body (w : World) : Except String OpResult :=
  match w.listDocx with
  | .error e => .error e
  | .ok docs =>
    .ok { success := true,
          fields := [("count", .num docs.length),
                     ("documents", .arr (docs.map (fun d =>
                        JVal.obj [("name", .str d.1), ("path", .str d.2.1),
                                  ("size", .num d.2.2.1), ("modified", .str d.2.2.2)])))] }

/-- `list_documents` handler. -/
def list_documents (w : World) : OpResult :=
  pytry (list_documents_body w)

/-- The `try` block of `add_table`. -/
def add_table_body (w : World) (filename : String) (table_data : List (List String))
    (title : Option String) : Except String OpResult :=
  let fp := get_file_path filename
  if w.fexists fp = false then
    .ok { success := false, error := some ("文件不存在: " ++ filename) }
  else
    match w.openDoc fp with
    | .error e => .error e
    | .ok doc =>
      let doc := if isTruthy title then { doc with paragraphs := doc.paragraphs ++ [title.getD ""] } else doc
      let doc := if table_data.isEmpty then doc
        else
          let cols := (table_data.map List.length).foldl max 0
          { doc with tables := doc.tables ++
              [table_data.map (fun row => row ++ List.replicate (cols - row.length) "")] }
      saveThen w fp doc { success := true, fields := [("message", .str "表格添加成功")] }

/-- `add_table` handler. -/
def add_table (w : World) (filename : String) (table_data : List (List String))
    (title : Option String) : OpResult :=
  pytry (add_table_body w filename table_data title)

/-- The `try` block of `search_replace` (runs modelled as one run per
paragraph; the count increments once per paragraph that contains the
search text, as in the source which increments once per run). -/
def search_replace_body (w : World) (filename search_text replace_text : String) :
    Except String OpResult :=
  let fp := get_file_path filename
  if w.fexists fp = false then
    .ok { success := false, error := some ("文件不存在: " ++ filename) }
  else
    match w.openDoc fp with
    | .error e => .error e
    | .ok doc =>
      let count := (doc.paragraphs.filter (fun p => containsStr p search_text)).length
      let newParas := doc.paragraphs.map (fun p =>
        if containsStr p search_text then replaceAll p search_text replace_text else p)
      saveThen w fp { doc with paragraphs := newParas }
        { success := true,
          fields := [("message", .str ("替换了 " ++ toString count ++ " 处")), ("count", .num count)] }

/-- `search_replace` handler. -/
def search_replace (w : World) (filename search_text replace_text : String) : OpResult :=
  pytry (search_replace_body w filename search_text replace_text)

/-! ### Direct invocation `POST /call` -/

/-- `handler(**params)` for a registered handler name: extract the
handler's keyword arguments from the params dictionary.  A missing
required argument models Python's `TypeError`, which the endpoint does
not catch (extra unexpected keys are not modelled, since `Params` only
carries the recognized keywords). -/
def dispatch (w : World) (tool : String) (p : Params) : Except String OpResult :=
  match tool with
  | "create_document" => .ok (create_document w p.filename p.title p.content)
  | "read_document" =>
    match p.filename with
    | some f => .ok (read_document w f)
    | none => .error "TypeError: read_document() missing required argument: filename"
  | "update_document" =>
    match p.filename, p.action with
    | some f, some a => .ok (update_document w f a p.content p.paragraph_index)
    | _, _ => .error "TypeError: update_document() missing required argument"
  | "delete_document" =>
    match p.filename with
    | some f => .ok (delete_document w f)
    | none => .error "TypeError: delete_document() missing required argument: filename"
  | "list_documents" => .ok (list_documents w)
  | "add_table" =>
    match p.filename, p.table_data with
    | some f, some td => .ok (add_table w f td p.title)
    | _, _ => .error "TypeError: add_table() missing required argument"
  | "search_replace" =>
    match p.filename, p.search_text, p.replace_text with
    | some f, some st, some rt => .ok (search_replace w f st rt)
    | _, _, _ => .error "TypeError: search_replace() missing required argument"
  | _ => .error "KeyError"

/-- The `POST /call` endpoint `call_tool`: unknown names return a
failure dictionary; registered names run the handler. -/
def call_tool (w : World) (tool : String) (params : Params) : Except String OpResult :=
  if TOOL_HANDLERS_keys.contains tool then dispatch w tool params
  else .ok { success := false, error := some ("未知工具: " ++ tool) }

/-- An operation result is well-formed at the boundary: it either
reports success or carries an error string. -/
def resultOk (r : OpResult) : Bool :=
  r.success || r.error.isSome

/-- A backend that reports success, for concrete runs. -/
def backendT : String → Params → OpResult := fun _ _ => { success := true }

/-- A backend that reports failure on every step, for concrete runs. -/
def backendF : String → Params → OpResult := fun _ _ => { success := false, error := some "boom" }

/-- A concrete world for direct-invocation runs. -/
def w0 : World where
  nowStr := "20250101_000000"
  fexists := fun _ => false
  openDoc := fun _ => .error "e"
  newDoc := .ok {}
  saveDoc := fun _ _ => .ok ()
  statSize := fun _ => .ok 0
  unlink := fun _ => .ok ()
  listDocx := .ok []

/-- The sanitized base the normalizer would fall back from: the sanitized
request filename if provided (and non-empty), else the sanitized title. -/
def sanitizedBase (req : AgentRequest) (nowSec nowMs : Nat) : String :=
  sanitize_filename (match req.filename with
    | some f => if f = "" then (normalize_request req nowSec nowMs).1 else f
    | none => (normalize_request req nowSec nowMs).1)

/-- The three frames `(progress, start, result)` emitted per step when
every dispatched step is registered and the peer stays connected. -/
def okEvents (backend : String → Params → OpResult) (total : Nat) :
    List Step → Nat → List Event
  | [], _ => []
  | step :: rest, idx =>
    Event.progress (progressMsg idx total (labelOf step))
      :: Event.startStep step.tool idx (labelOf step)
      :: Event.resultEvt (backend step.tool step.params) step.tool idx (labelOf step)
      :: okEvents backend total rest (idx + 1)

/-- A plan step naming an operation that is not registered, for concrete runs. -/
def badStep : Step := { tool := "nonexistent", params := {} }

/-! ### Helper lemmas -/

lemma sanitize_len (name : String) : (sanitize_filename name).length ≤ 40 := by
  show (List.take 40 _).length ≤ 40
  simp

lemma sanitize_chars (name : String) : ∀ c ∈ (sanitize_filename name).data, keepChar c = true := by
  intro c hc
  have hc' : c ∈ List.filter keepChar (collapseWS false (pytrim name).data) :=
    List.take_subset 40 _ hc
  exact (List.mem_filter.mp hc').2

lemma string_length_append (a b : String) : (a ++ b).length = a.length + b.length := by
  show (a.data ++ b.data).length = a.data.length + b.data.length
  simp

/-! ### Claim theorems -/

/-- C3: for every title and document identifier the plan has length
`1 + 2N + 1` with `N = 7` fixed sections (16 steps); the first step's
operation is `create_document`, the last is `add_table`, and each
section contributes one `update_document` step with action `add_heading`
followed by one `update_document` step with action `append`. -/
theorem C3_plan_shape (title filename : String) :
    ((react_doc_plan title filename).map (fun s => (s.tool, s.params.action)) =
      [("create_document", none),
       ("update_document", some "add_heading"), ("update_document", some "append"),
       ("update_document", some "add_heading"), ("update_document", some "append"),
       ("update_document", some "add_heading"), ("update_document", some "append"),
       ("update_document", some "add_heading"), ("update_document", some "append"),
       ("update_document", some "add_heading"), ("update_document", some "append"),
       ("update_document", some "add_heading"), ("update_document", some "append"),
       ("update_document", some "add_heading"), ("update_document", some "append"),
       ("add_table", none)])
    ∧ (react_doc_plan title filename).length = 1 + 2 * (sections title).length + 1
    ∧ (sections title).length = 7 :=
  ⟨rfl, rfl, rfl⟩

lemma id_len_aux (b : String) (nowSec nowMs : Nat) (hb : b.length ≤ 40)
    (hsec : (toString nowSec).length ≤ 36) :
    ((if b = "" ∨ b.length < 3 then "doc_" ++ toString nowSec else b) ++ "_" ++ toString nowMs).length
      ≤ 40 + 1 + (toString nowMs).length := by
  have h4 : ("doc_" : String).length = 4 := rfl
  have h1 : ("_" : String).length = 1 := rfl
  by_cases h : b = "" ∨ b.length < 3
  · rw [if_pos h]
    simp only [string_length_append]
    omega
  · rw [if_neg h]
    simp only [string_length_append]
    omega

/-- C5: every sanitized filename base is at most 40 characters and every
character of it is a word character, underscore, hyphen, or CJK
ideograph; hence (for any realistic seconds timestamp, here at most 36
digits) the final document identifier is at most
`40 + 1 + (millisecond timestamp digit count)` characters. -/
theorem C5_sanitize_bounds (name : String) (req : AgentRequest) (nowSec nowMs : Nat)
    (hsec : (toString nowSec).length ≤ 36) :
    (sanitize_filename name).length ≤ 40
    ∧ (∀ c ∈ (sanitize_filename name).data, keepChar c = true)
    ∧ (normalize_request req nowSec nowMs).2.length ≤ 40 + 1 + (toString nowMs).length := by
  refine ⟨sanitize_len name, sanitize_chars name, ?_⟩
  unfold normalize_request
  exact id_len_aux (sanitize_filename _) nowSec nowMs (sanitize_len _) hsec

theorem C5_sanitize_bounds_witness :
    (sanitize_filename "a b!").length ≤ 40
    ∧ keepChar 'a' = true
    ∧ (normalize_request ⟨"ab", none, none⟩ 5 7).2.length ≤ 40 + 1 + (toString 7).length := by
  have h := C5_sanitize_bounds "a b!" ⟨"ab", none, none⟩ 5 7 (by decide)
  exact ⟨h.1, h.2.1 'a' (by decide), h.2.2⟩

/-- C6: request normalization never fails and always yields a non-empty
identifier: the title is the trimmed request title if non-empty, else
the trimmed query, else `新文档`; when the sanitized base is empty or
shorter than 3 characters the identifier is the fixed-literal-plus-
seconds-timestamp base followed by `_` and the millisecond timestamp,
otherwise the sanitized base followed by `_` and the millisecond
timestamp. -/
theorem C6_normalization_total (req : AgentRequest) (nowSec nowMs : Nat) :
    (normalize_request req nowSec nowMs).1 =
      (if pytrim (req.title.getD "") ≠ "" then pytrim (req.title.getD "")
       else if pytrim req.query ≠ "" then pytrim req.query else "新文档")
    ∧ (normalize_request req nowSec nowMs).2 ≠ ""
    ∧ ((sanitizedBase req nowSec nowMs = "" ∨ (sanitizedBase req nowSec nowMs).length < 3) →
        (normalize_request req nowSec nowMs).2 = "doc_" ++ toString nowSec ++ "_" ++ toString nowMs)
    ∧ (¬(sanitizedBase req nowSec nowMs = "" ∨ (sanitizedBase req nowSec nowMs).length < 3) →
        (normalize_request req nowSec nowMs).2 = sanitizedBase req nowSec nowMs ++ "_" ++ toString nowMs) := by
  refine ⟨?_, ?_, ?_, ?_⟩
  · unfold normalize_request
    by_cases h1 : pytrim (req.title.getD "") = "" <;> by_cases h2 : pytrim req.query = "" <;>
      simp [h1, h2]
  · have key : ∀ b : String, b ++ "_" ++ toString nowMs ≠ "" := by
      intro b h
      have hlen := congrArg String.length h
      simp only [string_length_append] at hlen
      have h1 : ("_" : String).length = 1 := rfl
      have h0 : ("" : String).length = 0 := rfl
      omega
    exact key _
  · intro h
    simp only [sanitizedBase, normalize_request] at h ⊢
    rw [if_pos h]
  · intro h
    simp only [sanitizedBase, normalize_request] at h ⊢
    rw [if_neg h]

theorem C6_normalization_total_witness :
    (normalize_request ⟨"ab", none, none⟩ 5 7).2 = "doc_5_7"
    ∧ (normalize_request ⟨"ab", none, none⟩ 5 7).2 ≠ "" := by
  have h := C6_normalization_total ⟨"ab", none, none⟩ 5 7
  exact ⟨(h.2.2.1 (Or.inr (by decide))).trans (by rfl), h.2.1⟩

lemma hbLoop_etype (times : Nat → String) :
    ∀ n i, ∀ e ∈ hbLoop times i n, e.etype = "heartbeat" := by
  intro n
  induction n with
  | zero => intro i e he; simp [hbLoop] at he
  | succ m ih =>
    intro i e he
    rcases List.mem_cons.mp he with h | h
    · subst h; rfl
    · exact ih (i + 1) e h

/-- C8: a bare streaming subscription emits exactly one `connected`
frame, then exactly one `tools` frame listing the registered operation
names, then only `heartbeat` frames until the peer disconnects; no
`start`, `result`, or `done` frame is ever emitted on this path. -/
theorem C8_bare_subscription (times : Nat → String) (n : Nat) :
    (event_generator times n).head? = some (Event.connected "SSE 连接成功")
    ∧ (event_generator times n)[1]? = some (Event.toolsList TOOLS_keys)
    ∧ (∀ e ∈ (event_generator times n).drop 2, e.etype = "heartbeat")
    ∧ (∀ e ∈ event_generator times n,
        e.etype ≠ "start" ∧ e.etype ≠ "result" ∧ e.etype ≠ "done") := by
  refine ⟨rfl, by simp [event_generator], ?_, ?_⟩
  · intro e he
    exact hbLoop_etype times n 0 e (by simpa [event_generator] using he)
  · intro e he
    rcases List.mem_cons.mp he with h | he'
    · subst h; exact ⟨by decide, by decide, by decide⟩
    rcases List.mem_cons.mp he' with h | he''
    · subst h; exact ⟨by decide, by decide, by decide⟩
    · have ht := hbLoop_etype times n 0 e he''
      refine ⟨?_, ?_, ?_⟩ <;> simp [ht]

theorem C8_bare_subscription_witness :
    (event_generator (fun _ => "t0") 1).head? = some (Event.connected "SSE 连接成功")
    ∧ (Event.heartbeat "t0").etype = "heartbeat" := by
  have h := C8_bare_subscription (fun _ => "t0") 1
  exact ⟨h.1, h.2.2.1 (Event.heartbeat "t0") (List.mem_cons_self _ _)⟩

lemma pytry_ok (b : Except String OpResult)
    (h : ∀ r, b = .ok r → resultOk r = true) : resultOk (pytry b) = true := by
  cases b with
  | ok r => exact h r rfl
  | error e => simp [pytry, resultOk]

lemma create_body_ok (w : World) (fn ti ct : Option String) :
    ∀ r, create_document_body w fn ti ct = .ok r → resultOk r = true := by
  intro r hr
  unfold create_document_body at hr
  repeat' (first | (split at hr) | (dsimp only [] at hr))
  all_goals (try (cases hr))
  all_goals simp [resultOk]

lemma read_body_ok (w : World) (f : String) :
    ∀ r, read_document_body w f = .ok r → resultOk r = true := by
  intro r hr
  unfold read_document_body at hr
  repeat' (first | (split at hr) | (dsimp only [] at hr))
  all_goals (try (cases hr))
  all_goals simp [resultOk]

lemma update_body_ok (w : World) (f a : String) (co : Option String) (pidx : Option Int) :
    ∀ r, update_document_body w f a co pidx = .ok r → resultOk r = true := by
  intro r hr
  unfold update_document_body saveThen pyIdx at hr
  repeat' (first | (split at hr) | (dsimp only [] at hr))
  all_goals (try (cases hr))
  all_goals simp [resultOk, updOk]

lemma delete_body_ok (w : World) (f : String) :
    ∀ r, delete_document_body w f = .ok r → resultOk r = true := by
  intro r hr
  unfold delete_document_body at hr
  repeat' (first | (split at hr) | (dsimp only [] at hr))
  all_goals (try (cases hr))
  all_goals simp [resultOk]

lemma list_body_ok (w : World) :
    ∀ r, list_documents_body w = .ok r → resultOk r = true := by
  intro r hr
  unfold list_documents_body at hr
  repeat' (first | (split at hr) | (dsimp only [] at hr))
  all_goals (try (cases hr))
  all_goals simp [resultOk]

lemma add_table_body_ok (w : World) (f : String) (td : List (List String)) (tt : Option String) :
    ∀ r, add_table_body w f td tt = .ok r → resultOk r = true := by
  intro r hr
  unfold add_table_body saveThen at hr
  repeat' (first | (split at hr) | (dsimp only [] at hr))
  all_goals (try (cases hr))
  all_goals simp [resultOk]

lemma search_replace_body_ok (w : World) (f st rt : String) :
    ∀ r, search_replace_body w f st rt = .ok r → resultOk r = true := by
  intro r hr
  unfold search_replace_body saveThen at hr
  repeat' (first | (split at hr) | (dsimp only [] at hr))
  all_goals (try (cases hr))
  all_goals simp [resultOk]

/-- C7: every registered handler is total at its boundary: for every
world of primitive outcomes and every argument values it returns an
`OpResult` (never a raised exception, by the `pytry` wrapper), and a
`success=false` result always carries an error string. -/
theorem C7_handlers_total :
    ∀ (w : World) (fn ti ct : Option String) (f a : String) (co : Option String)
      (pidx : Option Int) (td : List (List String)) (tt : Option String) (st rt : String),
      resultOk (create_document w fn ti ct) = true
      ∧ resultOk (read_document w f) = true
      ∧ resultOk (update_document w f a co pidx) = true
      ∧ resultOk (delete_document w f) = true
      ∧ resultOk (list_documents w) = true
      ∧ resultOk (add_table w f td tt) = true
      ∧ resultOk (search_replace w f st rt) = true := by
  intro w fn ti ct f a co pidx td tt st rt
  exact ⟨pytry_ok _ (create_body_ok w fn ti ct),
         pytry_ok _ (read_body_ok w f),
         pytry_ok _ (update_body_ok w f a co pidx),
         pytry_ok _ (delete_body_ok w f),
         pytry_ok _ (list_body_ok w),
         pytry_ok _ (add_table_body_ok w f td tt),
         pytry_ok _ (search_replace_body_ok w f st rt)⟩

/-- C9: a direct (non-streaming, non-plan) invocation naming an unknown
operation returns a failure result naming it (no abort, no raise); a
registered name runs exactly that handler via keyword-argument dispatch. -/
theorem C9_direct_invocation (w : World) (tool : String) (p : Params) :
    (TOOL_HANDLERS_keys.contains tool = false →
       call_tool w tool p = .ok { success := false, error := some ("未知工具: " ++ tool) })
    ∧ (TOOL_HANDLERS_keys.contains tool = true →
       call_tool w tool p = dispatch w tool p) := by
  constructor
  · intro h
    have h' : tool ∉ TOOL_HANDLERS_keys := by simpa using h
    simp [call_tool, h']
  · intro h
    have h' : tool ∈ TOOL_HANDLERS_keys := by simpa using h
    simp [call_tool, h']

theorem C9_direct_invocation_witness :
    call_tool w0 "frobnicate" {} = .ok { success := false, error := some ("未知工具: " ++ "frobnicate") }
    ∧ call_tool w0 "list_documents" {} = dispatch w0 "list_documents" {} := by
  have h1 := (C9_direct_invocation w0 "frobnicate" {}).1 (by decide)
  have h2 := (C9_direct_invocation w0 "list_documents" {}).2 (by decide)
  exact ⟨h1, h2⟩

/-! ### Orchestration lemmas -/

lemma countType_cons (t : String) (e : Event) (evs : List Event) :
    countType t (e :: evs) = (if e.etype == t then 1 else 0) + countType t evs := by
  simp only [countType, List.filter_cons]
  split <;> simp [Nat.add_comm]

lemma countType_append (t : String) (a b : List Event) :
    countType t (a ++ b) = countType t a + countType t b := by
  simp [countType, List.filter_append]

lemma okEvents_count_result (backend : String → Params → OpResult) (total : Nat) :
    ∀ (l : List Step) (idx : Nat), countType "result" (okEvents backend total l idx) = l.length := by
  intro l
  induction l with
  | nil => intro idx; rfl
  | cons s t ih =>
    intro idx
    simp [okEvents, countType_cons, Event.etype, ih (idx + 1), Nat.add_comm]

lemma okEvents_count_other (ty : String) (hp : ty ≠ "progress") (hs : ty ≠ "start")
    (hr : ty ≠ "result") (backend : String → Params → OpResult) (total : Nat) :
    ∀ (l : List Step) (idx : Nat), countType ty (okEvents backend total l idx) = 0 := by
  intro l
  induction l with
  | nil => intro idx; rfl
  | cons s t ih =>
    intro idx
    simp only [okEvents, countType_cons, Event.etype, ih (idx + 1)]
    have h1 : ("progress" == ty) = false := by
      simpa using fun h => hp h.symm
    have h2 : ("start" == ty) = false := by
      simpa using fun h => hs h.symm
    have h3 : ("result" == ty) = false := by
      simpa using fun h => hr h.symm
    simp [h1, h2, h3]

lemma runSteps_ok_prefix (backend : String → Params → OpResult) (total : Nat) :
    ∀ (pre rest : List Step) (idx : Nat),
      (∀ s ∈ pre, TOOL_HANDLERS_keys.contains s.tool = true) →
      runSteps backend total (fun _ => false) (pre ++ rest) idx =
        (okEvents backend total pre idx ++ (runSteps backend total (fun _ => false) rest (idx + pre.length)).1,
         (runSteps backend total (fun _ => false) rest (idx + pre.length)).2) := by
  intro pre
  induction pre with
  | nil => intro rest idx _; simp [okEvents]
  | cons s t ih =>
    intro rest idx hpre
    have hs : TOOL_HANDLERS_keys.contains s.tool = true := hpre s (List.mem_cons_self s t)
    have hs' : s.tool ∈ TOOL_HANDLERS_keys := by simpa using hs
    have ih' := ih rest (idx + 1) (fun x hx => hpre x (List.mem_cons_of_mem s hx))
    rw [show idx + 1 + t.length = idx + (s :: t).length from by simp; omega] at ih'
    simp [runSteps, okEvents, hs, hs', ih']

lemma runSteps_all_ok (backend : String → Params → OpResult) (total : Nat)
    (plan : List Step) (idx : Nat)
    (h : ∀ s ∈ plan, TOOL_HANDLERS_keys.contains s.tool = true) :
    runSteps backend total (fun _ => false) plan idx = (okEvents backend total plan idx, true) := by
  have := runSteps_ok_prefix backend total plan [] idx h
  simpa [runSteps] using this

lemma runSteps_discAt (backend : String → Params → OpResult) (total k : Nat) :
    ∀ (plan : List Step) (idx : Nat), idx ≤ k →
      (∀ s ∈ plan, TOOL_HANDLERS_keys.contains s.tool = true) →
      runSteps backend total (fun i => decide (k ≤ i)) plan idx =
        (okEvents backend total (plan.take (k - idx)) idx, true) := by
  intro plan
  induction plan with
  | nil => intro idx _ _; simp [okEvents, runSteps]
  | cons s t ih =>
    intro idx hk hreg
    by_cases h : k ≤ idx
    · have hki : k = idx := le_antisymm h hk
      have : k - idx = 0 := by omega
      simp [runSteps, this, okEvents, decide_eq_true_eq, h]
    · have hlt : idx < k := lt_of_not_ge h
      have hs : TOOL_HANDLERS_keys.contains s.tool = true := hreg s (List.mem_cons_self s t)
      have hs' : s.tool ∈ TOOL_HANDLERS_keys := by simpa using hs
      have ih' := ih (idx + 1) (by omega) (fun x hx => hreg x (List.mem_cons_of_mem s hx))
      have htake : (s :: t).take (k - idx) = s :: t.take (k - (idx + 1)) := by
        have : k - idx = (k - (idx + 1)) + 1 := by omega
        simp [this]
      simp [runSteps, decide_eq_true_eq, h, hs, hs', ih', htake, okEvents]

lemma runSteps_no_error (backend : String → Params → OpResult) (total : Nat) (disc : Nat → Bool) :
    ∀ (plan : List Step) (idx : Nat),
      (∀ s ∈ plan, TOOL_HANDLERS_keys.contains s.tool = true) →
      countType "error" (runSteps backend total disc plan idx).1 = 0 := by
  intro plan
  induction plan with
  | nil => intro idx _; rfl
  | cons s t ih =>
    intro idx hreg
    have hs : TOOL_HANDLERS_keys.contains s.tool = true := hreg s (List.mem_cons_self s t)
    have ih' := ih (idx + 1) (fun x hx => hreg x (List.mem_cons_of_mem s hx))
    have hs' : s.tool ∈ TOOL_HANDLERS_keys := by simpa using hs
    by_cases hd : disc idx
    · simp [runSteps, hd, countType]
    · simp [runSteps, hd, hs, hs', countType_cons, Event.etype, ih']

lemma plan_tools_registered (t f : String) :
    ∀ s ∈ react_doc_plan t f, TOOL_HANDLERS_keys.contains s.tool = true := by
  intro s hs
  simp only [react_doc_plan, List.mem_cons, List.mem_append, List.mem_flatMap,
    List.mem_singleton] at hs
  rcases hs with h | ⟨hb, hhb, h⟩ | h
  · subst h; rfl
  · rcases h with h' | h' | h'
    · subst h'; rfl
    · subst h'; rfl
    · simp at h'
  · rcases h with h' | h'
    · subst h'; rfl
    · simp at h'

lemma hasDone_eq_false : ∀ evs : List Event, countType "done" evs = 0 → hasDone evs = false := by
  intro evs
  induction evs with
  | nil => intro _; rfl
  | cons e t ih =>
    intro h
    rw [countType_cons] at h
    by_cases he : (e.etype == "done") = true
    · rw [if_pos he] at h; omega
    · rw [if_neg he] at h
      have he' : (e.etype == "done") = false := by simpa using he
      simp only [hasDone, List.any_cons, he', Bool.false_or]
      exact ih (by simpa using h)

/-- C2: during plan execution, a step naming an operation absent from
the registry yields exactly `progress`, `start`, `error` (the error
naming the unknown operation and the step index) for that step; no
`result` frame for it, no later step executes, and no `done` frame is
ever emitted on that stream. -/
theorem C2_unknown_operation_abort (backend : String → Params → OpResult)
    (pre post : List Step) (bad : Step) (fn tl : String)
    (hpre : ∀ s ∈ pre, TOOL_HANDLERS_keys.contains s.tool = true)
    (hbad : TOOL_HANDLERS_keys.contains bad.tool = false) :
    agentStream backend (fun _ => false) (pre ++ bad :: post) fn tl =
      Event.startAgent "开始多步生成文档" ::
        (okEvents backend (pre ++ bad :: post).length pre 1 ++
          [Event.progress (progressMsg (1 + pre.length) (pre ++ bad :: post).length (labelOf bad)),
           Event.startStep bad.tool (1 + pre.length) (labelOf bad),
           Event.errorEvt ("未知工具: " ++ bad.tool) (1 + pre.length)])
    ∧ hasDone (agentStream backend (fun _ => false) (pre ++ bad :: post) fn tl) = false
    ∧ countType "result" (agentStream backend (fun _ => false) (pre ++ bad :: post) fn tl)
        = pre.length := by
  have hb' : bad.tool ∉ TOOL_HANDLERS_keys := by simpa using hbad
  have hbadstep :
      runSteps backend (pre ++ bad :: post).length (fun _ => false) (bad :: post) (1 + pre.length) =
        ([Event.progress (progressMsg (1 + pre.length) (pre ++ bad :: post).length (labelOf bad)),
          Event.startStep bad.tool (1 + pre.length) (labelOf bad),
          Event.errorEvt ("未知工具: " ++ bad.tool) (1 + pre.length)], false) := by
    simp [runSteps, hbad, hb']
  have hpre' := runSteps_ok_prefix backend (pre ++ bad :: post).length pre (bad :: post) 1 hpre
  rw [hbadstep] at hpre'
  have h1 :
      agentStream backend (fun _ => false) (pre ++ bad :: post) fn tl =
        Event.startAgent "开始多步生成文档" ::
          (okEvents backend (pre ++ bad :: post).length pre 1 ++
            [Event.progress (progressMsg (1 + pre.length) (pre ++ bad :: post).length (labelOf bad)),
             Event.startStep bad.tool (1 + pre.length) (labelOf bad),
             Event.errorEvt ("未知工具: " ++ bad.tool) (1 + pre.length)]) := by
    simp only [agentStream]
    rw [hpre']
    simp
  refine ⟨h1, ?_, ?_⟩
  · apply hasDone_eq_false
    rw [h1, countType_cons, countType_append]
    rw [okEvents_count_other "done" (by decide) (by decide) (by decide)]
    simp [countType, Event.etype]
  · rw [h1, countType_cons, countType_append]
    rw [okEvents_count_result]
    simp [countType, Event.etype]

theorem C2_unknown_operation_abort_witness :
    agentStream backendT (fun _ => false) [badStep] "f" "t" =
      [Event.startAgent "开始多步生成文档", Event.progress "[1/1] nonexistent",
       Event.startStep "nonexistent" 1 "nonexistent", Event.errorEvt "未知工具: nonexistent" 1]
    ∧ hasDone (agentStream backendT (fun _ => false) [badStep] "f" "t") = false := by
  have h := C2_unknown_operation_abort backendT [] [] badStep "f" "t" (by simp) (by decide)
  exact ⟨h.1.trans (by rfl), h.2.1⟩

/-- C4: a backend result with `success=false` never halts the plan: for
every plan whose steps all name registered operations and every backend
behavior, every step is dispatched, the number of `result` frames equals
the plan's step count, and a `done` frame ends the stream (no peer
disconnect). -/
theorem C4_backend_failure_nonfatal (backend : String → Params → OpResult)
    (plan : List Step) (fn tl : String)
    (hreg : ∀ s ∈ plan, TOOL_HANDLERS_keys.contains s.tool = true) :
    agentStream backend (fun _ => false) plan fn tl =
      Event.startAgent "开始多步生成文档" ::
        (okEvents backend plan.length plan 1 ++ [Event.doneEvt fn tl])
    ∧ countType "result" (agentStream backend (fun _ => false) plan fn tl) = plan.length
    ∧ hasDone (agentStream backend (fun _ => false) plan fn tl) = true := by
  have key := runSteps_all_ok backend plan.length plan 1 hreg
  have h1 :
      agentStream backend (fun _ => false) plan fn tl =
        Event.startAgent "开始多步生成文档" ::
          (okEvents backend plan.length plan 1 ++ [Event.doneEvt fn tl]) := by
    simp only [agentStream]
    rw [key]
    simp
  refine ⟨h1, ?_, ?_⟩
  · rw [h1, countType_cons, countType_append, okEvents_count_result]
    simp [countType, Event.etype]
  · rw [h1]
    simp [hasDone, Event.etype]

theorem C4_backend_failure_nonfatal_witness :
    countType "result" (agentStream backendF (fun _ => false)
      [{ tool := "create_document", params := {} }, { tool := "add_table", params := {} }] "f" "t") = 2
    ∧ hasDone (agentStream backendF (fun _ => false)
      [{ tool := "create_document", params := {} }, { tool := "add_table", params := {} }] "f" "t") = true := by
  have h := C4_backend_failure_nonfatal backendF
    [{ tool := "create_document", params := {} }, { tool := "add_table", params := {} }] "f" "t"
    (by decide)
  exact ⟨h.2.1.trans (by rfl), h.2.2⟩

/-- C1 counterexample: with the peer already disconnected at the
cancellation check before step 1, the generator still emits a `done`
frame after breaking out of the loop (the `break` skips the per-step
frames but not the final `yield done`), contradicting the claim that no
further event of any kind — in particular no `done` — is emitted. -/
theorem C1_counterexample :
    stream_response ⟨"React", none, none⟩ 0 0 (fun _ => true) backendT =
      [Event.startAgent "开始多步生成文档", Event.doneEvt "React_0" "React"]
    ∧ hasDone (stream_response ⟨"React", none, none⟩ 0 0 (fun _ => true) backendT) = true :=
  ⟨rfl, rfl⟩

/-- C1 amended: if the peer is detected as disconnected at the
cancellation check before dispatching step `k`, exactly the `k-1`
already-completed steps have their `(progress, start, result)` frames
and no per-step frame for step `k` or later is emitted — but the stream
still ends with a single `done` frame, because the loop `break` does not
skip the final `yield done`. -/
theorem C1_amended_disconnect (req : AgentRequest) (nowSec nowMs : Nat)
    (backend : String → Params → OpResult) (k : Nat) (hk : 1 ≤ k) :
    stream_response req nowSec nowMs (fun i => decide (k ≤ i)) backend =
      Event.startAgent "开始多步生成文档" ::
        (okEvents backend
          (react_doc_plan (normalize_request req nowSec nowMs).1 (normalize_request req nowSec nowMs).2).length
          ((react_doc_plan (normalize_request req nowSec nowMs).1 (normalize_request req nowSec nowMs).2).take (k - 1)) 1
         ++ [Event.doneEvt (normalize_request req nowSec nowMs).2 (normalize_request req nowSec nowMs).1]) := by
  have hreg := plan_tools_registered (normalize_request req nowSec nowMs).1 (normalize_request req nowSec nowMs).2
  have h := runSteps_discAt backend
    (react_doc_plan (normalize_request req nowSec nowMs).1 (normalize_request req nowSec nowMs).2).length k
    (react_doc_plan (normalize_request req nowSec nowMs).1 (normalize_request req nowSec nowMs).2) 1 hk hreg
  simp only [stream_response, agentStream]
  rw [h]
  simp

theorem C1_amended_disconnect_witness :
    stream_response ⟨"React", none, none⟩ 0 0 (fun i => decide (1 ≤ i)) backendT =
      [Event.startAgent "开始多步生成文档", Event.doneEvt "React_0" "React"] := by
  have h := C1_amended_disconnect ⟨"React", none, none⟩ 0 0 backendT 1 (by decide)
  exact h.trans (by rfl)

/-- C10: every step of every plan the builder produces names an
operation registered in the handler registry, so the unknown-operation
error branch of the orchestration loop is unreachable on plans the
builder itself produces: no `error` frame ever appears on an
orchestrated stream, for any disconnect schedule and backend. -/
theorem C10_plan_operations_registered :
    (∀ (t f : String), ∀ s ∈ react_doc_plan t f, TOOL_HANDLERS_keys.contains s.tool = true)
    ∧ (∀ (req : AgentRequest) (nowSec nowMs : Nat) (disc : Nat → Bool)
         (backend : String → Params → OpResult),
         countType "error" (stream_response req nowSec nowMs disc backend) = 0) := by
  refine ⟨plan_tools_registered, ?_⟩
  intro req nS nM disc backend
  have hreg := plan_tools_registered (normalize_request req nS nM).1 (normalize_request req nS nM).2
  have h := runSteps_no_error backend
    (react_doc_plan (normalize_request req nS nM).1 (normalize_request req nS nM).2).length disc
    (react_doc_plan (normalize_request req nS nM).1 (normalize_request req nS nM).2) 1 hreg
  simp only [stream_response, agentStream]
  rw [countType_cons, countType_append, h]
  cases hd : (runSteps backend
      (react_doc_plan (normalize_request req nS nM).1 (normalize_request req nS nM).2).length disc
      (react_doc_plan (normalize_request req nS nM).1 (normalize_request req nS nM).2) 1).2 <;>
    simp [countType, Event.etype]

theorem C10_plan_operations_registered_witness :
    TOOL_HANDLERS_keys.contains "create_document" = true
    ∧ countType "error" (stream_response ⟨"React", none, none⟩ 0 0 (fun _ => true) backendT) = 0 := by
  have h := C10_plan_operations_registered
  refine ⟨?_, h.2 ⟨"React", none, none⟩ 0 0 (fun _ => true) backendT⟩
  exact h.1 "t" "f"
    { tool := "create_document", label := some "创建文档",
      params := { filename := some "f", title := some "t", content := some (introText "t") } }
    (List.mem_cons_self _ _)
